import Mathlib

/-!
Shallow embedding of the plugin-library lifecycle and factory-dispatch
subsystem from the repository source file src/plugin/library.rs.

Modelling choices
- A raw C string pointer crossing the FFI boundary is a value of a small
  inductive: null, non-UTF8, or a valid string.
- The loaded native module is an immutable value: the entry-point symbol,
  its init behaviour, its factory table and its plugin factory contents
  are all pure functions or data carried in a `Library` record.
- Every operation that calls into the native module also returns the list
  of FFI events it performed, in order, so that temporal claims about
  init and deinit counts and ordering can be stated over traces.
- A Rust panic (an `expect` on a failed result) is modelled by an
  operation returning `none`; a recoverable error is `Except.error`.
- The conversion helpers from the crate module `util` are not part of the
  given sources; they are modelled from the spec where noted.
-/

/-- A raw C string pointer received from or handed to the native module:
null, present but not valid UTF-8, or a valid string. -/
inductive CStrPtr where
  | nullPtr : CStrPtr
  | invalid : CStrPtr
  | valid : String → CStrPtr
deriving DecidableEq

/-- Whether a Rust string contains an embedded null byte, which makes
CString construction fail. -/
def strContainsNull (s : String) : Bool :=
  s.toList.contains '\x00'

/-- Modelled from the spec: the missing crate helper
`util::cstr_ptr_to_mandatory_string`. A mandatory descriptor field that is
null, not valid text, or empty fails with an error; otherwise the owned
string is returned. -/
def cstr_ptr_to_mandatory_string : CStrPtr → Except String String
  | CStrPtr.nullPtr => Except.error "mandatory string is a null pointer"
  | CStrPtr.invalid => Except.error "mandatory string is not valid UTF-8"
  | CStrPtr.valid s =>
    if s = "" then Except.error "mandatory string is empty" else Except.ok s

/-- Modelled from the spec: the missing crate helper
`util::cstr_ptr_to_optional_string`. A null pointer or an empty string is
normalized to absent; invalid text is a decode error; otherwise the
string is present. -/
def cstr_ptr_to_optional_string : CStrPtr → Except String (Option String)
  | CStrPtr.nullPtr => Except.ok none
  | CStrPtr.invalid => Except.error "optional string is not valid UTF-8"
  | CStrPtr.valid s =>
    if s = "" then Except.ok none else Except.ok (some s)

/-- Modelled from the spec: one element of the features array; a non-string
entry is a decode error. -/
def cstr_feature : CStrPtr → Except String String
  | CStrPtr.valid s => Except.ok s
  | _ => Except.error "features array element is not a valid string"

/-- Modelled from the spec: the missing crate helper
`util::cstr_array_to_vec`. A null (or non-terminated) array pointer is
reported as absent; the elements are decoded in order. -/
def cstr_array_to_vec : Option (List CStrPtr) → Except String (Option (List String))
  | none => Except.ok none
  | some l => (l.mapM cstr_feature).map some

/-- Adds context to an error message, mirroring `anyhow::Context`. -/
def ctx (msg : String) : Except String α → Except String α
  | Except.error e => Except.error (msg ++ ": " ++ e)
  | Except.ok a => Except.ok a

/-- Metadata for a single plugin, mirroring `PluginMetadata`. -/
structure PluginMetadata where
  id : String
  name : String
  version : Option String
  vendor : Option String
  description : Option String
  manual_url : Option String
  support_url : Option String
  features : List String
deriving DecidableEq

/-- A plugin descriptor record as exposed by the native plugin factory,
mirroring `clap_plugin_descriptor`: raw C string fields plus a features
array that may be null or malformed (modelled as `none`). -/
structure Descriptor where
  id : CStrPtr
  name : CStrPtr
  version : CStrPtr
  vendor : CStrPtr
  description : CStrPtr
  manual_url : CStrPtr
  support_url : CStrPtr
  features : Option (List CStrPtr)
deriving DecidableEq

/-- Mirrors `PluginMetadata::from_descriptor`: mandatory id and name,
optional remaining string fields, features array decoded or rejected. -/
def PluginMetadata.from_descriptor (d : Descriptor) : Except String PluginMetadata :=
  match ctx "Error parsing the plugin descriptor id field" (cstr_ptr_to_mandatory_string d.id) with
  | Except.error e => Except.error e
  | Except.ok i =>
    match ctx "Error parsing the plugin descriptor name field" (cstr_ptr_to_mandatory_string d.name) with
    | Except.error e => Except.error e
    | Except.ok n =>
      match ctx "Error parsing the plugin descriptor version field" (cstr_ptr_to_optional_string d.version) with
      | Except.error e => Except.error e
      | Except.ok ver =>
        match ctx "Error parsing the plugin descriptor vendor field" (cstr_ptr_to_optional_string d.vendor) with
        | Except.error e => Except.error e
        | Except.ok ven =>
          match ctx "Error parsing the plugin descriptor description field" (cstr_ptr_to_optional_string d.description) with
          | Except.error e => Except.error e
          | Except.ok desc =>
            match ctx "Error parsing the plugin descriptor manual_url field" (cstr_ptr_to_optional_string d.manual_url) with
            | Except.error e => Except.error e
            | Except.ok murl =>
              match ctx "Error parsing the plugin descriptor support_url field" (cstr_ptr_to_optional_string d.support_url) with
              | Except.error e => Except.error e
              | Except.ok surl =>
                match cstr_array_to_vec d.features with
                | Except.error e => Except.error e
                | Except.ok none =>
                  Except.error "The plugin descriptor features array is malformed"
                | Except.ok (some fs) =>
                  Except.ok
                    { id := i, name := n, version := ver, vendor := ven,
                      description := desc, manual_url := murl,
                      support_url := surl, features := fs }

/-- The wire-level version record, mirroring `clap_version`. -/
structure clap_version where
  major : Nat
  minor : Nat
  revision : Nat
deriving DecidableEq

/-- Metadata for a whole plugin library, mirroring `PluginLibraryMetadata`. -/
structure PluginLibraryMetadata where
  version : Nat × Nat × Nat
  plugins : List PluginMetadata
deriving DecidableEq

/-- Mirrors `PluginLibraryMetadata::clap_version`. -/
def PluginLibraryMetadata.clap_version (m : PluginLibraryMetadata) : clap_version :=
  { major := m.version.1, minor := m.version.2.1, revision := m.version.2.2 }

/-- The plugin factory contents of a native module, mirroring the
`clap_plugin_factory` function table: a plugin count, a descriptor lookup
that may return a null pointer, and the create operation outcome. -/
structure PluginFactoryImpl where
  pluginCount : Nat
  get_plugin_descriptor : Nat → Option Descriptor
  createResult : String → Bool

/-- The entry point record of a native module, mirroring
`clap_plugin_entry`: a version record, the init behaviour, and the
get_factory table (true when the returned factory pointer is non-null;
the plugin factory contents are carried alongside). -/
structure EntryPoint where
  clap_version : clap_version
  initResult : String → Bool
  getFactory : String → Bool
  pluginFactory : PluginFactoryImpl

/-- A loaded native module, mirroring `libloading::Library` as far as this
subsystem observes it: the clap_entry symbol may be absent, present but
null, or a valid entry point. -/
structure Library where
  clapEntrySymbol : Option (Option EntryPoint)

/-- Mirrors `get_clap_entry_point`: symbol absent is an error, symbol
present but null is an error, otherwise the entry point is returned. -/
def getClapEntryPoint (lib : Library) : Except String EntryPoint :=
  match lib.clapEntrySymbol with
  | none => Except.error "The library does not expose a clap_entry symbol"
  | some none => Except.error "clap_entry is a null pointer."
  | some (some e) => Except.ok e

/-- The factory ID constant `CLAP_PLUGIN_FACTORY_ID`. -/
def CLAP_PLUGIN_FACTORY_ID : String := "clap.plugin-factory"

/-- The factory ID constant `CLAP_PRESET_DISCOVERY_FACTORY_ID`. -/
def CLAP_PRESET_DISCOVERY_FACTORY_ID : String := "clap.preset-discovery-factory/draft-2"

/-- An FFI call into the native module, recorded for trace reasoning. -/
inductive Event where
  | init : String → Event
  | deinit : Event
  | getFactory : String → Event
  | getPluginCount : Event
  | getPluginDescriptor : Nat → Event
  | createPlugin : String → Event
deriving DecidableEq

/-- Whether an event is a call to the entry point init function. -/
def isInitEvent : Event → Bool
  | Event.init _ => true
  | _ => false

/-- Whether an event is a read-only enumeration call (factory lookup,
plugin count, descriptor fetch): never init, never deinit. -/
def isEnumEvent : Event → Bool
  | Event.getFactory _ => true
  | Event.getPluginCount => true
  | Event.getPluginDescriptor _ => true
  | _ => false

/-- A filesystem path as this subsystem observes it: absolute or relative,
a component list, and whether the underlying OS string is valid UTF-8. -/
structure OsPath where
  absolute : Bool
  components : List String
  wellEncoded : Bool
deriving DecidableEq

/-- Mirrors `PathBuf::join`: joining an absolute path onto anything
replaces it; a relative path is appended. -/
def OsPath.join (p q : OsPath) : OsPath :=
  if q.absolute then q
  else { absolute := p.absolute, components := p.components ++ q.components,
         wellEncoded := p.wellEncoded && q.wellEncoded }

/-- The string form of a path, as handed to the entry point init call. -/
def OsPath.render (p : OsPath) : String :=
  (if p.absolute then "/" else "") ++ String.intercalate "/" p.components

/-- Whether a path contains an embedded null byte in any component. -/
def OsPath.containsNull (p : OsPath) : Bool :=
  p.components.any strContainsNull

/-- The fallback path "." used when the current directory is unavailable. -/
def dotPath : OsPath := { absolute := false, components := ["."], wellEncoded := true }

/-- The platform the load runs on: bundle resolution only on macos. -/
inductive Platform where
  | linux : Platform
  | macos : Platform
deriving DecidableEq

/-- The ambient environment of a load operation: the current working
directory (when obtainable), the platform, the bundle executable resolver
and the module loading function passed to load_with. -/
structure LoadEnv where
  currentDir : Option OsPath
  platform : Platform
  bundleExec : OsPath → Except String OsPath
  loadLibrary : OsPath → Except String Library

/-- The anchoring step of load_with: join the input path onto the current
working directory (or onto "." when the current directory is unavailable). -/
def anchorPath (env : LoadEnv) (path : OsPath) : OsPath :=
  (env.currentDir.getD dotPath).join path

/-- Resolve and open the module: a direct load on linux, bundle executable
resolution first on macos. -/
def loadResolved (env : LoadEnv) (p : OsPath) : Except String Library :=
  match env.platform with
  | Platform.linux => env.loadLibrary p
  | Platform.macos =>
    match env.bundleExec p with
    | Except.error e => Except.error e
    | Except.ok exec => env.loadLibrary exec

/-- A successfully loaded plugin library, mirroring `PluginLibrary`. -/
structure PluginLibrary where
  plugin_path : OsPath
  library : Library

/-- Mirrors `PluginLibrary::load_with`: anchor the path, validate its
encoding, open the module (via the bundle on macos), resolve the entry
point and call init with the anchored path; an init failure is an error.
Returns the result together with the FFI events performed. -/
def PluginLibrary.load_with (env : LoadEnv) (path : OsPath) :
    Except String PluginLibrary × List Event :=
  let p := anchorPath env path
  if p.wellEncoded = false then
    (Except.error "Path contains invalid UTF-8", [])
  else if p.containsNull = true then
    (Except.error "Path contains null bytes", [])
  else
    match loadResolved env p with
    | Except.error e => (Except.error e, [])
    | Except.ok library =>
      match getClapEntryPoint library with
      | Except.error e => (Except.error e, [])
      | Except.ok entry =>
        if entry.initResult p.render = true then
          (Except.ok { plugin_path := p, library := library }, [Event.init p.render])
        else
          (Except.error ("clap_plugin_entry::init(" ++ p.render ++ ") returned false."),
           [Event.init p.render])

/-- Mirrors `impl Drop for PluginLibrary`: re-resolve the entry point (the
expect panic is modelled as `none`) and call deinit. -/
def dropLibrary (lib : PluginLibrary) : Option (List Event) :=
  match getClapEntryPoint lib.library with
  | Except.error _ => none
  | Except.ok _ => some [Event.deinit]

/-- The error message for a null descriptor at a given index. -/
def nullDescriptorMsg (i total : Nat) : String :=
  "The plugin returned a null plugin descriptor for plugin index " ++ toString i ++
    " (expected " ++ toString total ++ " total plugins)."

/-- The error message for a missing factory with the given ID. -/
def missingFactoryMsg (factoryId : String) : String :=
  "The plugin does not support the " ++ factoryId ++ " factory."

/-- The error message for duplicate plugin IDs in one factory. -/
def duplicateIdMsg : String :=
  "The plugin factory contains multiple entries for the same plugin ID."

/-- The descriptor loop of `PluginLibrary::metadata`: starting at index
`i` with `remaining` indices left out of `total`, fetch each descriptor in
ascending order; a null descriptor aborts with an error naming its index;
a conversion failure aborts with that error. Returns the converted
metadata and the descriptor-fetch events in order. -/
def collectFrom (f : PluginFactoryImpl) (i remaining total : Nat) :
    Except String (List PluginMetadata) × List Event :=
  match remaining with
  | 0 => (Except.ok [], [])
  | r + 1 =>
    match f.get_plugin_descriptor i with
    | none => (Except.error (nullDescriptorMsg i total), [Event.getPluginDescriptor i])
    | some d =>
      match PluginMetadata.from_descriptor d with
      | Except.error e => (Except.error e, [Event.getPluginDescriptor i])
      | Except.ok m =>
        let rest := collectFrom f (i + 1) r total
        ((rest.1).map (fun l => m :: l), Event.getPluginDescriptor i :: rest.2)

/-- Mirrors `PluginLibrary::metadata`: re-resolve the entry point (panic
modelled as `none`), require the plugin factory, read the version record,
enumerate and convert all descriptors, then reject duplicate plugin IDs. -/
def PluginLibrary.metadata (lib : PluginLibrary) :
    Option (Except String PluginLibraryMetadata × List Event) :=
  match getClapEntryPoint lib.library with
  | Except.error _ => none
  | Except.ok entry =>
    if entry.getFactory CLAP_PLUGIN_FACTORY_ID = false then
      some (Except.error (missingFactoryMsg CLAP_PLUGIN_FACTORY_ID),
            [Event.getFactory CLAP_PLUGIN_FACTORY_ID])
    else
      let n := entry.pluginFactory.pluginCount
      let res := collectFrom entry.pluginFactory 0 n n
      let evs := Event.getFactory CLAP_PLUGIN_FACTORY_ID :: Event.getPluginCount :: res.2
      match res.1 with
      | Except.error e => some (Except.error e, evs)
      | Except.ok plugins =>
        if ((plugins.map PluginMetadata.id).dedup.length = plugins.length : Bool) = false then
          some (Except.error duplicateIdMsg, evs)
        else
          some (Except.ok
            { version := (entry.clap_version.major, entry.clap_version.minor,
                          entry.clap_version.revision),
              plugins := plugins }, evs)

/-- Mirrors `PluginLibrary::factory_exists`: an embedded null byte in the
factory ID panics (modelled as `none`) before any FFI call; otherwise the
entry point is re-resolved (panic as `none`) and get_factory is queried. -/
def PluginLibrary.factory_exists (lib : PluginLibrary) (factory_id : String) :
    Option (Bool × List Event) :=
  if strContainsNull factory_id = true then none
  else
    match getClapEntryPoint lib.library with
    | Except.error _ => none
    | Except.ok entry =>
      some (entry.getFactory factory_id, [Event.getFactory factory_id])

/-- Mirrors `PluginLibrary::create_plugin`: re-resolve the entry point
(panic as `none`), query the plugin factory over FFI, reject an absent
factory, then validate the plugin ID string, and only then invoke the
factory create operation (the external `Plugin::new` is modelled from the
spec: a failed creation is an error, a successful one an opaque handle). -/
def PluginLibrary.create_plugin (lib : PluginLibrary) (id : String) :
    Option (Except String Unit × List Event) :=
  match getClapEntryPoint lib.library with
  | Except.error _ => none
  | Except.ok entry =>
    if entry.getFactory CLAP_PLUGIN_FACTORY_ID = false then
      some (Except.error (missingFactoryMsg CLAP_PLUGIN_FACTORY_ID),
            [Event.getFactory CLAP_PLUGIN_FACTORY_ID])
    else if strContainsNull id = true then
      some (Except.error "Plugin ID contained null bytes",
            [Event.getFactory CLAP_PLUGIN_FACTORY_ID])
    else if entry.pluginFactory.createResult id = true then
      some (Except.ok (),
            [Event.getFactory CLAP_PLUGIN_FACTORY_ID, Event.createPlugin id])
    else
      some (Except.error "Could not create the plugin instance",
            [Event.getFactory CLAP_PLUGIN_FACTORY_ID, Event.createPlugin id])

/-- Mirrors `PluginLibrary::preset_discovery_factory`: re-resolve the
entry point (panic as `none`), query the preset-discovery factory over
FFI; a null factory pointer is an error naming the factory ID, a non-null
one yields the factory handle (modelled as an opaque unit). -/
def PluginLibrary.preset_discovery_factory (lib : PluginLibrary) :
    Option (Except String Unit × List Event) :=
  match getClapEntryPoint lib.library with
  | Except.error _ => none
  | Except.ok entry =>
    if entry.getFactory CLAP_PRESET_DISCOVERY_FACTORY_ID = true then
      some (Except.ok (), [Event.getFactory CLAP_PRESET_DISCOVERY_FACTORY_ID])
    else
      some (Except.error (missingFactoryMsg CLAP_PRESET_DISCOVERY_FACTORY_ID),
            [Event.getFactory CLAP_PRESET_DISCOVERY_FACTORY_ID])

/-- A well-formed sample descriptor used to instantiate the theorems. -/
def sampleDescriptor : Descriptor :=
  { id := CStrPtr.valid "com.example.synth", name := CStrPtr.valid "Synth",
    version := CStrPtr.valid "1.0", vendor := CStrPtr.valid "",
    description := CStrPtr.nullPtr, manual_url := CStrPtr.nullPtr,
    support_url := CStrPtr.nullPtr, features := some [CStrPtr.valid "instrument"] }

/-- The metadata value sampleDescriptor converts to. -/
def samplePluginMetadata : PluginMetadata :=
  { id := "com.example.synth", name := "Synth", version := some "1.0",
    vendor := none, description := none, manual_url := none,
    support_url := none, features := ["instrument"] }

/-- A sample entry point: init succeeds, only the plugin factory exists,
one well-formed plugin. -/
def sampleEntry : EntryPoint :=
  { clap_version := { major := 1, minor := 2, revision := 3 },
    initResult := fun _ => true,
    getFactory := fun s => s == CLAP_PLUGIN_FACTORY_ID,
    pluginFactory :=
      { pluginCount := 1,
        get_plugin_descriptor := fun i => if i = 0 then some sampleDescriptor else none,
        createResult := fun s => s == "com.example.synth" } }

/-- A sample loaded module exposing sampleEntry. -/
def sampleLibrary : Library := { clapEntrySymbol := some (some sampleEntry) }

/-- A sample input path, relative. -/
def samplePath : OsPath := { absolute := false, components := ["plugin.clap"], wellEncoded := true }

/-- A sample load environment on linux with an absolute current directory. -/
def sampleEnv : LoadEnv :=
  { currentDir := some { absolute := true, components := ["home"], wellEncoded := true },
    platform := Platform.linux,
    bundleExec := fun p => Except.ok p,
    loadLibrary := fun _ => Except.ok sampleLibrary }

/-- The PluginLibrary value sampleEnv's load produces. -/
def sampleLib : PluginLibrary :=
  { plugin_path := anchorPath sampleEnv samplePath, library := sampleLibrary }

example : PluginLibrary.load_with sampleEnv samplePath =
    (Except.ok sampleLib, [Event.init "/home/plugin.clap"]) := rfl

example : PluginMetadata.from_descriptor sampleDescriptor = Except.ok samplePluginMetadata := rfl

example : sampleLib.metadata = some (Except.ok
    { version := (1, 2, 3), plugins := [samplePluginMetadata] },
    [Event.getFactory CLAP_PLUGIN_FACTORY_ID, Event.getPluginCount,
     Event.getPluginDescriptor 0]) := rfl

example : sampleLib.preset_discovery_factory =
    some (Except.error (missingFactoryMsg CLAP_PRESET_DISCOVERY_FACTORY_ID),
          [Event.getFactory CLAP_PRESET_DISCOVERY_FACTORY_ID]) := rfl

example : sampleLib.factory_exists "bad\x00id" = none := rfl

example : sampleLib.create_plugin "bad\x00id" =
    some (Except.error "Plugin ID contained null bytes",
          [Event.getFactory CLAP_PLUGIN_FACTORY_ID]) := rfl

/-- Inversion of a successful load: the returned library carries the
anchored path, the trace is exactly one init call with the anchored path
string, and the entry point resolves with init accepting that path. -/
theorem load_with_ok_inv (env : LoadEnv) (path : OsPath) (lib : PluginLibrary)
    (evs : List Event)
    (h : PluginLibrary.load_with env path = (Except.ok lib, evs)) :
    lib.plugin_path = anchorPath env path ∧
      evs = [Event.init (anchorPath env path).render] ∧
      ∃ e, getClapEntryPoint lib.library = Except.ok e ∧
        e.initResult (anchorPath env path).render = true := by
  unfold PluginLibrary.load_with at h
  dsimp only at h
  split at h
  · exact absurd (congrArg Prod.fst h) (by simp)
  · split at h
    · exact absurd (congrArg Prod.fst h) (by simp)
    · split at h
      · exact absurd (congrArg Prod.fst h) (by simp)
      · rename_i library hlib
        split at h
        · exact absurd (congrArg Prod.fst h) (by simp)
        · rename_i entry hentry
          split at h
          · rename_i hinit
            have h1 := congrArg Prod.fst h
            have h2 := congrArg Prod.snd h
            simp only at h1 h2
            cases h1
            refine ⟨rfl, h2.symm, entry, hentry, hinit⟩
          · exact absurd (congrArg Prod.fst h) (by simp)

/-- Every event emitted by the descriptor loop is a descriptor fetch. -/
theorem collectFrom_events_enum (f : PluginFactoryImpl) :
    ∀ r i total e, e ∈ (collectFrom f i r total).2 → isEnumEvent e = true := by
  intro r
  induction r with
  | zero => intro i total e he; simp [collectFrom] at he
  | succ r ih =>
    intro i total e he
    unfold collectFrom at he
    split at he
    · simp at he
      cases he; rfl
    · split at he
      · simp at he
        cases he; rfl
      · simp only [List.mem_cons] at he
        cases he with
        | inl h => cases h; rfl
        | inr h => exact ih (i + 1) total e h

/-- Every event emitted by a metadata query is an enumeration call:
metadata never calls init or deinit. -/
theorem metadata_events_enum (lib : PluginLibrary)
    (r : Except String PluginLibraryMetadata) (evs : List Event)
    (h : lib.metadata = some (r, evs)) :
    ∀ e ∈ evs, isEnumEvent e = true := by
  intro e he
  unfold PluginLibrary.metadata at h
  split at h
  · exact absurd h (by simp)
  · rename_i entry hentry
    split at h
    · have h2 := congrArg Prod.snd (Option.some.inj h)
      simp only at h2
      rw [← h2] at he
      simp at he
      cases he; rfl
    · dsimp only at h
      have key : evs = Event.getFactory CLAP_PLUGIN_FACTORY_ID :: Event.getPluginCount ::
          (collectFrom entry.pluginFactory 0 entry.pluginFactory.pluginCount
            entry.pluginFactory.pluginCount).2 := by
        split at h
        · exact (congrArg Prod.snd (Option.some.inj h)).symm
        · split at h
          · exact (congrArg Prod.snd (Option.some.inj h)).symm
          · exact (congrArg Prod.snd (Option.some.inj h)).symm
      rw [key] at he
      simp only [List.mem_cons] at he
      rcases he with h3 | h3 | h3
      · cases h3; rfl
      · cases h3; rfl
      · exact collectFrom_events_enum entry.pluginFactory _ 0 _ e h3
  
/-- An enumeration event is neither an init call nor the deinit call. -/
theorem enum_event_not_lifecycle (e : Event) (h : isEnumEvent e = true) :
    isInitEvent e = false ∧ e ≠ Event.deinit := by
  cases e <;> simp_all [isEnumEvent, isInitEvent]

/-- Claim C1: for every PluginLibrary produced by a successful load, the
trace of the load contains exactly one init call; a metadata query adds
no init and no deinit call; dropping the library performs exactly the
deinit call; over the whole load, metadata, drop scenario, init happens
exactly once, deinit happens exactly once, and deinit is the last event
(no entry-point call occurs after it). -/
theorem c1_init_once_deinit_once (env : LoadEnv) (path : OsPath)
    (lib : PluginLibrary) (evs mevs : List Event)
    (mr : Except String PluginLibraryMetadata)
    (hload : PluginLibrary.load_with env path = (Except.ok lib, evs))
    (hmeta : lib.metadata = some (mr, mevs)) :
    ∃ devs, dropLibrary lib = some devs ∧
      (evs ++ mevs ++ devs).countP isInitEvent = 1 ∧
      (evs ++ mevs ++ devs).count Event.deinit = 1 ∧
      (evs ++ mevs ++ devs).getLast? = some Event.deinit ∧
      evs.countP isInitEvent = 1 ∧
      mevs.countP isInitEvent = 0 ∧ mevs.count Event.deinit = 0 := by
  obtain ⟨hpath, hevs, e, hentry, hinit⟩ := load_with_ok_inv env path lib evs hload
  refine ⟨[Event.deinit], ?_, ?_, ?_, ?_, ?_, ?_, ?_⟩
  · unfold dropLibrary
    rw [hentry]
  · rw [hevs]
    simp only [List.countP_append]
    have hm : mevs.countP isInitEvent = 0 := by
      rw [List.countP_eq_zero]
      intro a ha
      simp [(enum_event_not_lifecycle a (metadata_events_enum lib mr mevs hmeta a ha)).1]
    rw [hm]
    simp [List.countP, List.countP.go, isInitEvent]
  · rw [hevs]
    simp only [List.count_append]
    have hm : mevs.count Event.deinit = 0 := by
      rw [List.count_eq_zero]
      intro ha
      exact (enum_event_not_lifecycle Event.deinit
        (metadata_events_enum lib mr mevs hmeta Event.deinit ha)).2 rfl
    rw [hm]
    simp [List.count_cons, List.count_nil]
  · exact List.getLast?_concat _
  · rw [hevs]; simp [List.countP, List.countP.go, isInitEvent]
  · rw [List.countP_eq_zero]
    intro a ha
    simp [(enum_event_not_lifecycle a (metadata_events_enum lib mr mevs hmeta a ha)).1]
  · rw [List.count_eq_zero]
    intro ha
    exact (enum_event_not_lifecycle Event.deinit
      (metadata_events_enum lib mr mevs hmeta Event.deinit ha)).2 rfl

/-- Witness for C1 at the sample module: a concrete load, metadata query
and drop with the stated trace properties. -/
theorem c1_witness :
    ∃ devs, dropLibrary sampleLib = some devs ∧
      ([Event.init "/home/plugin.clap"] ++
        [Event.getFactory CLAP_PLUGIN_FACTORY_ID, Event.getPluginCount,
         Event.getPluginDescriptor 0] ++ devs).countP isInitEvent = 1 ∧
      ([Event.init "/home/plugin.clap"] ++
        [Event.getFactory CLAP_PLUGIN_FACTORY_ID, Event.getPluginCount,
         Event.getPluginDescriptor 0] ++ devs).count Event.deinit = 1 ∧
      ([Event.init "/home/plugin.clap"] ++
        [Event.getFactory CLAP_PLUGIN_FACTORY_ID, Event.getPluginCount,
         Event.getPluginDescriptor 0] ++ devs).getLast? = some Event.deinit ∧
      ([Event.init "/home/plugin.clap"]).countP isInitEvent = 1 ∧
      ([Event.getFactory CLAP_PLUGIN_FACTORY_ID, Event.getPluginCount,
        Event.getPluginDescriptor 0] : List Event).countP isInitEvent = 0 ∧
      ([Event.getFactory CLAP_PLUGIN_FACTORY_ID, Event.getPluginCount,
        Event.getPluginDescriptor 0] : List Event).count Event.deinit = 0 :=
  c1_init_once_deinit_once sampleEnv samplePath sampleLib
    [Event.init "/home/plugin.clap"]
    [Event.getFactory CLAP_PLUGIN_FACTORY_ID, Event.getPluginCount,
     Event.getPluginDescriptor 0]
    (Except.ok { version := (1, 2, 3), plugins := [samplePluginMetadata] })
    rfl rfl

/-- Claim C2: when the module loads, the entry point resolves, but its
init call returns false, the whole load fails with an error (no
PluginLibrary is returned) and the trace of the load contains no deinit
call: deinit is never called for that module. -/
theorem c2_init_false_fails (env : LoadEnv) (path : OsPath)
    (library : Library) (entry : EntryPoint)
    (henc : (anchorPath env path).wellEncoded = true)
    (hnull : (anchorPath env path).containsNull = false)
    (hlib : loadResolved env (anchorPath env path) = Except.ok library)
    (hentry : getClapEntryPoint library = Except.ok entry)
    (hinit : entry.initResult (anchorPath env path).render = false) :
    PluginLibrary.load_with env path =
      (Except.error ("clap_plugin_entry::init(" ++ (anchorPath env path).render ++
        ") returned false."), [Event.init (anchorPath env path).render]) ∧
    Event.deinit ∉ (PluginLibrary.load_with env path).2 := by
  have key : PluginLibrary.load_with env path =
      (Except.error ("clap_plugin_entry::init(" ++ (anchorPath env path).render ++
        ") returned false."), [Event.init (anchorPath env path).render]) := by
    unfold PluginLibrary.load_with
    dsimp only
    rw [henc, hnull]
    simp only [hlib, hentry, hinit]
    simp
  refine ⟨key, ?_⟩
  rw [key]
  simp

/-- A sample entry point whose init call fails. -/
def refusingEntry : EntryPoint :=
  { clap_version := { major := 1, minor := 2, revision := 3 },
    initResult := fun _ => false,
    getFactory := fun _ => false,
    pluginFactory :=
      { pluginCount := 0, get_plugin_descriptor := fun _ => none,
        createResult := fun _ => false } }

/-- A sample module whose entry point refuses to initialize. -/
def refusingLibrary : Library := { clapEntrySymbol := some (some refusingEntry) }

/-- A sample environment loading the refusing module. -/
def refusingEnv : LoadEnv :=
  { currentDir := some { absolute := true, components := ["home"], wellEncoded := true },
    platform := Platform.linux,
    bundleExec := fun p => Except.ok p,
    loadLibrary := fun _ => Except.ok refusingLibrary }

/-- Witness for C2 at a concrete module whose init returns false. -/
theorem c2_witness :
    PluginLibrary.load_with refusingEnv samplePath =
      (Except.error ("clap_plugin_entry::init(" ++
        (anchorPath refusingEnv samplePath).render ++ ") returned false."),
       [Event.init (anchorPath refusingEnv samplePath).render]) ∧
    Event.deinit ∉ (PluginLibrary.load_with refusingEnv samplePath).2 :=
  c2_init_false_fails refusingEnv samplePath refusingLibrary refusingEntry
    rfl rfl rfl rfl rfl

/-- Claim C3 counterexample: a concrete, successfully loaded library whose
module does not expose the preset-discovery factory; requesting the
preset-discovery factory returns an error (never a non-error outcome),
contradicting the claim that absence there is a normal, non-error result. -/
theorem c3_counterexample :
    (PluginLibrary.load_with sampleEnv samplePath).1 = Except.ok sampleLib ∧
    sampleEntry.getFactory CLAP_PRESET_DISCOVERY_FACTORY_ID = false ∧
    sampleLib.preset_discovery_factory =
      some (Except.error (missingFactoryMsg CLAP_PRESET_DISCOVERY_FACTORY_ID),
            [Event.getFactory CLAP_PRESET_DISCOVERY_FACTORY_ID]) ∧
    ∀ u evs, sampleLib.preset_discovery_factory ≠ some (Except.ok u, evs) := by
  refine ⟨rfl, rfl, rfl, ?_⟩
  intro u evs h
  rw [(rfl : sampleLib.preset_discovery_factory =
    some (Except.error (missingFactoryMsg CLAP_PRESET_DISCOVERY_FACTORY_ID),
          [Event.getFactory CLAP_PRESET_DISCOVERY_FACTORY_ID]))] at h
  injection h with h1
  injection h1 with h2 h3
  exact Except.noConfusion h2

/-- Claim C3 (amended): for every loaded library, an absent
preset-discovery factory makes preset_discovery_factory return an error
naming that factory ID, exactly like an absent plugin factory makes
metadata and create_plugin return an error naming the plugin factory ID;
the two absence paths behave the same, and only factory_exists reports
absence as a non-error boolean. -/
theorem c3_factory_absence_amended (lib : PluginLibrary) (entry : EntryPoint)
    (hentry : getClapEntryPoint lib.library = Except.ok entry) :
    (entry.getFactory CLAP_PRESET_DISCOVERY_FACTORY_ID = false →
      lib.preset_discovery_factory =
        some (Except.error (missingFactoryMsg CLAP_PRESET_DISCOVERY_FACTORY_ID),
              [Event.getFactory CLAP_PRESET_DISCOVERY_FACTORY_ID])) ∧
    (entry.getFactory CLAP_PLUGIN_FACTORY_ID = false →
      lib.metadata =
        some (Except.error (missingFactoryMsg CLAP_PLUGIN_FACTORY_ID),
              [Event.getFactory CLAP_PLUGIN_FACTORY_ID]) ∧
      ∀ id, lib.create_plugin id =
        some (Except.error (missingFactoryMsg CLAP_PLUGIN_FACTORY_ID),
              [Event.getFactory CLAP_PLUGIN_FACTORY_ID])) ∧
    (∀ fid, strContainsNull fid = false →
      lib.factory_exists fid = some (entry.getFactory fid, [Event.getFactory fid])) := by
  refine ⟨?_, ?_, ?_⟩
  · intro h
    unfold PluginLibrary.preset_discovery_factory
    rw [hentry]
    dsimp only
    rw [h]
    simp
  · intro h
    constructor
    · unfold PluginLibrary.metadata
      rw [hentry]
      simp [h]
    · intro id
      unfold PluginLibrary.create_plugin
      rw [hentry]
      simp [h]
  · intro fid hfid
    unfold PluginLibrary.factory_exists
    rw [hfid]
    simp [hentry]

/-- The PluginLibrary around the refusing module, which exposes no
factories at all. -/
def refusingLib : PluginLibrary :=
  { plugin_path := samplePath, library := refusingLibrary }

/-- Witness for the amended C3 at a concrete module with no factories:
both absence paths produce errors, and factory_exists reports false. -/
theorem c3_witness :
    refusingLib.preset_discovery_factory =
      some (Except.error (missingFactoryMsg CLAP_PRESET_DISCOVERY_FACTORY_ID),
            [Event.getFactory CLAP_PRESET_DISCOVERY_FACTORY_ID]) ∧
    refusingLib.metadata =
      some (Except.error (missingFactoryMsg CLAP_PLUGIN_FACTORY_ID),
            [Event.getFactory CLAP_PLUGIN_FACTORY_ID]) ∧
    refusingLib.create_plugin "x" =
      some (Except.error (missingFactoryMsg CLAP_PLUGIN_FACTORY_ID),
            [Event.getFactory CLAP_PLUGIN_FACTORY_ID]) ∧
    refusingLib.factory_exists "x" = some (false, [Event.getFactory "x"]) := by
  have h := c3_factory_absence_amended refusingLib refusingEntry rfl
  exact ⟨h.1 rfl, (h.2.1 rfl).1, (h.2.1 rfl).2 "x", h.2.2 "x" rfl⟩

/-- Whether the descriptor at an index is present and converts cleanly. -/
def descOk (f : PluginFactoryImpl) (k : Nat) : Bool :=
  match f.get_plugin_descriptor k with
  | none => false
  | some d =>
    match PluginMetadata.from_descriptor d with
    | Except.ok _ => true
    | Except.error _ => false

/-- Inversion of descOk: a clean index yields a descriptor and metadata. -/
theorem descOk_inv (f : PluginFactoryImpl) (k : Nat) (h : descOk f k = true) :
    ∃ d m, f.get_plugin_descriptor k = some d ∧
      PluginMetadata.from_descriptor d = Except.ok m := by
  unfold descOk at h
  split at h
  · exact absurd h (by simp)
  · rename_i d hd
    split at h
    · rename_i m hm
      exact ⟨d, m, hd, hm⟩
    · exact absurd h (by simp)

/-- The descriptor loop aborts at the first null descriptor: when index
`i + j` is null, all earlier indices convert cleanly and `j` is within the
remaining range, the loop returns the error naming index `i + j` and its
trace is exactly the ascending descriptor fetches `i, ..., i + j`. -/
theorem collectFrom_null_at (f : PluginFactoryImpl) (total : Nat) :
    ∀ j i r, j < r → f.get_plugin_descriptor (i + j) = none →
      (∀ k, k < j → descOk f (i + k) = true) →
      collectFrom f i r total =
        (Except.error (nullDescriptorMsg (i + j) total),
         (List.range (j + 1)).map (fun k => Event.getPluginDescriptor (i + k))) := by
  intro j
  induction j with
  | zero =>
    intro i r hr hnone _
    match r, hr with
    | r + 1, _ =>
      unfold collectFrom
      have hnone' : f.get_plugin_descriptor i = none := by simpa using hnone
      rw [hnone', Prod.mk.injEq]
      refine ⟨by rw [Nat.add_zero], by rfl⟩
  | succ j ih =>
    intro i r hr hnone hprev
    match r, hr with
    | r + 1, hr =>
      obtain ⟨d, m, hd, hm⟩ := descOk_inv f i (by simpa using hprev 0 (Nat.succ_pos j))
      have hrec := ih (i + 1) r (Nat.lt_of_succ_lt_succ hr)
        (by rw [show i + 1 + j = i + (j + 1) by omega]; exact hnone)
        (fun k hk => by
          rw [show i + 1 + k = i + (k + 1) by omega]
          exact hprev (k + 1) (Nat.succ_lt_succ hk))
      rw [show i + 1 + j = i + (j + 1) from by omega] at hrec
      unfold collectFrom
      simp only [hd, hm, hrec]
      rw [Prod.mk.injEq]
      constructor
      · simp only [Except.map]
      · conv_rhs => rw [List.range_succ_eq_map]
        simp only [List.map_cons, List.map_map, Nat.add_zero]
        congr 1
        apply List.map_congr_left
        intro k _
        simp only [Function.comp_apply]
        congr 1
        omega

/-- Claim C4: metadata reads the plugin count and fetches descriptors for
indices 0, 1, ... in ascending order; if the descriptor at index j is
null (all earlier indices being well-formed), metadata immediately
returns the error naming index j, and its descriptor-fetch trace is
exactly the indices 0 through j — no index is skipped and nothing past j
is fetched or converted. -/
theorem c4_null_descriptor_aborts (lib : PluginLibrary) (entry : EntryPoint) (j : Nat)
    (hentry : getClapEntryPoint lib.library = Except.ok entry)
    (hfac : entry.getFactory CLAP_PLUGIN_FACTORY_ID = true)
    (hj : j < entry.pluginFactory.pluginCount)
    (hnull : entry.pluginFactory.get_plugin_descriptor j = none)
    (hprev : ∀ k, k < j → descOk entry.pluginFactory k = true) :
    lib.metadata = some
      (Except.error (nullDescriptorMsg j entry.pluginFactory.pluginCount),
       Event.getFactory CLAP_PLUGIN_FACTORY_ID :: Event.getPluginCount ::
         (List.range (j + 1)).map Event.getPluginDescriptor) := by
  have hc : collectFrom entry.pluginFactory 0 entry.pluginFactory.pluginCount
      entry.pluginFactory.pluginCount =
      (Except.error (nullDescriptorMsg j entry.pluginFactory.pluginCount),
       (List.range (j + 1)).map Event.getPluginDescriptor) := by
    have h := collectFrom_null_at entry.pluginFactory entry.pluginFactory.pluginCount
      j 0 entry.pluginFactory.pluginCount hj (by simpa using hnull)
      (fun k hk => by simpa using hprev k hk)
    simpa using h
  unfold PluginLibrary.metadata
  rw [hentry]
  simp [hfac, hc]

/-- A sample entry point whose factory reports three plugins but returns
a null descriptor from index 1 onwards. -/
def gapEntry : EntryPoint :=
  { clap_version := { major := 1, minor := 0, revision := 0 },
    initResult := fun _ => true,
    getFactory := fun s => s == CLAP_PLUGIN_FACTORY_ID,
    pluginFactory :=
      { pluginCount := 3,
        get_plugin_descriptor := fun i => if i = 0 then some sampleDescriptor else none,
        createResult := fun _ => false } }

/-- The PluginLibrary around the gap module. -/
def gapLib : PluginLibrary :=
  { plugin_path := samplePath, library := { clapEntrySymbol := some (some gapEntry) } }

/-- Witness for C4 at a concrete module whose descriptor 1 of 3 is null. -/
theorem c4_witness :
    gapLib.metadata = some
      (Except.error (nullDescriptorMsg 1 3),
       Event.getFactory CLAP_PLUGIN_FACTORY_ID :: Event.getPluginCount ::
         (List.range 2).map Event.getPluginDescriptor) :=
  c4_null_descriptor_aborts gapLib gapEntry 1 rfl rfl (by decide) rfl
    (by decide)

/-- A list with duplicates deduplicates to a strictly different length. -/
theorem not_nodup_dedup_length_ne {α : Type} [DecidableEq α] (l : List α)
    (h : ¬ l.Nodup) : l.dedup.length ≠ l.length := by
  intro hlen
  apply h
  have heq := List.Sublist.eq_of_length (List.dedup_sublist l) hlen
  rw [← heq]
  exact List.nodup_dedup l

/-- Claim C5: when every descriptor converts successfully but two or more
of the resulting plugins share an id, metadata fails with the single
aggregate duplicate-ID error (a message naming no index), and no
metadata value is returned. -/
theorem c5_duplicate_ids (lib : PluginLibrary) (entry : EntryPoint)
    (plugins : List PluginMetadata) (cevs : List Event)
    (hentry : getClapEntryPoint lib.library = Except.ok entry)
    (hfac : entry.getFactory CLAP_PLUGIN_FACTORY_ID = true)
    (hcollect : collectFrom entry.pluginFactory 0 entry.pluginFactory.pluginCount
      entry.pluginFactory.pluginCount = (Except.ok plugins, cevs))
    (hdup : ¬ (plugins.map PluginMetadata.id).Nodup) :
    lib.metadata = some (Except.error duplicateIdMsg,
      Event.getFactory CLAP_PLUGIN_FACTORY_ID :: Event.getPluginCount :: cevs) := by
  have hne : (plugins.map PluginMetadata.id).dedup.length ≠ plugins.length := by
    intro hlen
    exact not_nodup_dedup_length_ne _ hdup (by rw [hlen, List.length_map])
  unfold PluginLibrary.metadata
  rw [hentry]
  simp [hfac, hcollect, hne]

/-- A sample entry point whose factory reports the same descriptor twice. -/
def dupEntry : EntryPoint :=
  { clap_version := { major := 1, minor := 0, revision := 0 },
    initResult := fun _ => true,
    getFactory := fun s => s == CLAP_PLUGIN_FACTORY_ID,
    pluginFactory :=
      { pluginCount := 2,
        get_plugin_descriptor := fun _ => some sampleDescriptor,
        createResult := fun _ => false } }

/-- The PluginLibrary around the duplicate-ID module. -/
def dupLib : PluginLibrary :=
  { plugin_path := samplePath, library := { clapEntrySymbol := some (some dupEntry) } }

/-- Witness for C5 at a concrete module exposing two plugins with the
same id. -/
theorem c5_witness :
    dupLib.metadata = some (Except.error duplicateIdMsg,
      Event.getFactory CLAP_PLUGIN_FACTORY_ID :: Event.getPluginCount ::
        [Event.getPluginDescriptor 0, Event.getPluginDescriptor 1]) :=
  c5_duplicate_ids dupLib dupEntry [samplePluginMetadata, samplePluginMetadata]
    [Event.getPluginDescriptor 0, Event.getPluginDescriptor 1] rfl rfl rfl (by decide)

/-- Stripping error context preserves success. -/
theorem ctx_ok {α : Type} (msg : String) (r : Except String α) (a : α)
    (h : ctx msg r = Except.ok a) : r = Except.ok a := by
  unfold ctx at h
  split at h
  · exact absurd h (by simp)
  · exact h

/-- A successful mandatory conversion never yields the empty string. -/
theorem mandatory_ok_nonempty (c : CStrPtr) (s : String)
    (h : cstr_ptr_to_mandatory_string c = Except.ok s) : s ≠ "" := by
  unfold cstr_ptr_to_mandatory_string at h
  split at h
  · exact absurd h (by simp)
  · exact absurd h (by simp)
  · rename_i s'
    split at h
    · exact absurd h (by simp)
    · rename_i hne
      cases h
      exact hne

/-- An optional field is either absent or a present non-empty string. -/
def optPresentNonempty (o : Option String) : Prop :=
  o = none ∨ ∃ s, o = some s ∧ s ≠ ""

/-- A successful optional conversion is absent or present and non-empty. -/
theorem optional_ok_shape (c : CStrPtr) (o : Option String)
    (h : cstr_ptr_to_optional_string c = Except.ok o) : optPresentNonempty o := by
  unfold cstr_ptr_to_optional_string at h
  split at h
  · cases h
    exact Or.inl rfl
  · exact absurd h (by simp)
  · rename_i s
    split at h
    · cases h
      exact Or.inl rfl
    · rename_i hne
      cases h
      exact Or.inr ⟨s, rfl, hne⟩

/-- Claim C6: every PluginMetadata produced by from_descriptor has a
non-empty id and a non-empty name, and each optional field is either
absent or a present non-empty string; the optional conversion itself
normalizes both a null and an empty C string to absent. -/
theorem c6_field_shapes (d : Descriptor) (m : PluginMetadata)
    (h : PluginMetadata.from_descriptor d = Except.ok m) :
    m.id ≠ "" ∧ m.name ≠ "" ∧
    optPresentNonempty m.version ∧ optPresentNonempty m.vendor ∧
    optPresentNonempty m.description ∧ optPresentNonempty m.manual_url ∧
    optPresentNonempty m.support_url ∧
    cstr_ptr_to_optional_string CStrPtr.nullPtr = Except.ok none ∧
    cstr_ptr_to_optional_string (CStrPtr.valid "") = Except.ok none := by
  unfold PluginMetadata.from_descriptor at h
  split at h
  · exact absurd h (by simp)
  · rename_i i hi
    split at h
    · exact absurd h (by simp)
    · rename_i n hn
      split at h
      · exact absurd h (by simp)
      · rename_i ver hver
        split at h
        · exact absurd h (by simp)
        · rename_i ven hven
          split at h
          · exact absurd h (by simp)
          · rename_i desc hdesc
            split at h
            · exact absurd h (by simp)
            · rename_i murl hmurl
              split at h
              · exact absurd h (by simp)
              · rename_i surl hsurl
                split at h
                · exact absurd h (by simp)
                · exact absurd h (by simp)
                · rename_i fs hfs
                  cases h
                  refine ⟨mandatory_ok_nonempty d.id i (ctx_ok _ _ _ hi),
                    mandatory_ok_nonempty d.name n (ctx_ok _ _ _ hn),
                    optional_ok_shape d.version ver (ctx_ok _ _ _ hver),
                    optional_ok_shape d.vendor ven (ctx_ok _ _ _ hven),
                    optional_ok_shape d.description desc (ctx_ok _ _ _ hdesc),
                    optional_ok_shape d.manual_url murl (ctx_ok _ _ _ hmurl),
                    optional_ok_shape d.support_url surl (ctx_ok _ _ _ hsurl),
                    rfl, rfl⟩

/-- Witness for C6 at the sample descriptor, whose vendor is the empty
string and whose remaining optional fields are null. -/
theorem c6_witness :
    samplePluginMetadata.id ≠ "" ∧ samplePluginMetadata.name ≠ "" ∧
    optPresentNonempty samplePluginMetadata.version ∧
    optPresentNonempty samplePluginMetadata.vendor ∧
    optPresentNonempty samplePluginMetadata.description ∧
    optPresentNonempty samplePluginMetadata.manual_url ∧
    optPresentNonempty samplePluginMetadata.support_url ∧
    cstr_ptr_to_optional_string CStrPtr.nullPtr = Except.ok none ∧
    cstr_ptr_to_optional_string (CStrPtr.valid "") = Except.ok none :=
  c6_field_shapes sampleDescriptor samplePluginMetadata rfl

/-- Claim C7: a successful load anchors the input path by joining it onto
the current working directory (an absolute input is left unchanged, a
relative one becomes cwd-relative), the single init call receives exactly
the rendered anchored path (on every platform, including the bundle
platform where the module itself is opened via the bundle executable),
and plugin_path stores that same anchored path. -/
theorem c7_path_anchored (env : LoadEnv) (path : OsPath) (lib : PluginLibrary)
    (evs : List Event)
    (hload : PluginLibrary.load_with env path = (Except.ok lib, evs)) :
    lib.plugin_path = anchorPath env path ∧
    evs = [Event.init (anchorPath env path).render] ∧
    (path.absolute = true → anchorPath env path = path) ∧
    ∀ cwd, env.currentDir = some cwd → anchorPath env path = cwd.join path := by
  obtain ⟨h1, h2, _⟩ := load_with_ok_inv env path lib evs hload
  refine ⟨h1, h2, ?_, ?_⟩
  · intro habs
    unfold anchorPath OsPath.join
    rw [habs]
    simp
  · intro cwd hcwd
    unfold anchorPath
    rw [hcwd]
    rfl

/-- A macos load environment whose bundle resolver rewrites the path to
the executable inside the bundle. -/
def macEnv : LoadEnv :=
  { currentDir := some { absolute := true, components := ["Users"], wellEncoded := true },
    platform := Platform.macos,
    bundleExec := fun p => Except.ok
      { absolute := p.absolute,
        components := p.components ++ ["Contents", "MacOS", "plugin"],
        wellEncoded := p.wellEncoded },
    loadLibrary := fun _ => Except.ok sampleLibrary }

/-- The PluginLibrary the macos environment load produces. -/
def macLib : PluginLibrary :=
  { plugin_path := anchorPath macEnv samplePath, library := sampleLibrary }

/-- Witness for C7 on the bundle platform: init receives the anchored
bundle path, not the inner executable path the loader opened. -/
theorem c7_witness :
    macLib.plugin_path = anchorPath macEnv samplePath ∧
    [Event.init "/Users/plugin.clap"] = [Event.init (anchorPath macEnv samplePath).render] ∧
    (samplePath.absolute = true → anchorPath macEnv samplePath = samplePath) ∧
    ∀ cwd, macEnv.currentDir = some cwd →
      anchorPath macEnv samplePath = cwd.join samplePath :=
  c7_path_anchored macEnv samplePath macLib [Event.init "/Users/plugin.clap"] rfl

/-- Claim C9: converting a metadata version triple to the wire-level
version record and reading the fields back yields the original triple,
and building metadata from a wire-level record's fields and converting
back yields the original record. -/
theorem c9_version_roundtrip :
    (∀ m : PluginLibraryMetadata,
      ((m.clap_version).major, (m.clap_version).minor, (m.clap_version).revision) = m.version) ∧
    (∀ v : clap_version, ∀ ps : List PluginMetadata,
      (PluginLibraryMetadata.mk (v.major, v.minor, v.revision) ps).clap_version = v) := by
  constructor
  · intro m
    obtain ⟨⟨a, b, c⟩, ps⟩ := m
    rfl
  · intro v ps
    obtain ⟨a, b, c⟩ := v
    rfl

/-- A concrete metadata value for instantiating C9. -/
def sampleLibMeta : PluginLibraryMetadata := { version := (1, 2, 3), plugins := [] }

/-- Witness for C9 at a concrete version triple and record. -/
theorem c9_witness :
    ((sampleLibMeta.clap_version).major, (sampleLibMeta.clap_version).minor,
      (sampleLibMeta.clap_version).revision) = sampleLibMeta.version ∧
    (PluginLibraryMetadata.mk ((clap_version.mk 4 5 6).major, (clap_version.mk 4 5 6).minor,
      (clap_version.mk 4 5 6).revision) []).clap_version = clap_version.mk 4 5 6 :=
  ⟨c9_version_roundtrip.1 sampleLibMeta, c9_version_roundtrip.2 (clap_version.mk 4 5 6) []⟩

/-- Claim C10: every PluginLibrary obtained from a successful load has an
entry point that re-resolves successfully, so the expect panic branches
in metadata, factory_exists (for IDs without null bytes), create_plugin,
preset_discovery_factory and Drop are unreachable. -/
theorem c10_reresolution_never_panics (env : LoadEnv) (path : OsPath)
    (lib : PluginLibrary) (evs : List Event)
    (hload : PluginLibrary.load_with env path = (Except.ok lib, evs)) :
    (∃ e, getClapEntryPoint lib.library = Except.ok e) ∧
    lib.metadata ≠ none ∧
    dropLibrary lib ≠ none ∧
    lib.preset_discovery_factory ≠ none ∧
    (∀ id, lib.create_plugin id ≠ none) ∧
    (∀ fid, strContainsNull fid = false → lib.factory_exists fid ≠ none) := by
  obtain ⟨_, _, e, hentry, _⟩ := load_with_ok_inv env path lib evs hload
  refine ⟨⟨e, hentry⟩, ?_, ?_, ?_, ?_, ?_⟩
  · unfold PluginLibrary.metadata
    rw [hentry]
    dsimp only
    split
    · simp
    · split
      · simp
      · split <;> simp
  · unfold dropLibrary
    rw [hentry]
    simp
  · unfold PluginLibrary.preset_discovery_factory
    rw [hentry]
    dsimp only
    split <;> simp
  · intro id
    unfold PluginLibrary.create_plugin
    rw [hentry]
    dsimp only
    split
    · simp
    · split
      · simp
      · split <;> simp
  · intro fid hfid
    unfold PluginLibrary.factory_exists
    rw [hfid]
    simp [hentry]

/-- Witness for C10 at the sample module. -/
theorem c10_witness :
    (∃ e, getClapEntryPoint sampleLib.library = Except.ok e) ∧
    sampleLib.metadata ≠ none ∧
    dropLibrary sampleLib ≠ none ∧
    sampleLib.preset_discovery_factory ≠ none ∧
    (∀ id, sampleLib.create_plugin id ≠ none) ∧
    (∀ fid, strContainsNull fid = false → sampleLib.factory_exists fid ≠ none) :=
  c10_reresolution_never_panics sampleEnv samplePath sampleLib
    [Event.init "/home/plugin.clap"] rfl

/-- A plugin or factory ID containing an embedded null byte. -/
def badId : String := "bad\x00id"

/-- Claim C8 counterexample: at a concrete loaded library and a concrete
ID with an embedded null byte, factory_exists panics (it produces no
error value at all) instead of rejecting with an error, and create_plugin
performs the get_factory FFI call into the module before rejecting the
ID, so the rejection does not happen before any FFI call. -/
theorem c8_counterexample :
    strContainsNull badId = true ∧
    sampleLib.factory_exists badId = none ∧
    sampleLib.create_plugin badId =
      some (Except.error "Plugin ID contained null bytes",
            [Event.getFactory CLAP_PLUGIN_FACTORY_ID]) :=
  ⟨rfl, rfl, rfl⟩

/-- Claim C8 (amended): the load path is validated and rejected with an
error before any FFI call (the trace is empty, for invalid encoding and
for embedded null bytes alike); a factory ID with an embedded null byte
makes factory_exists abort by a panic, not an error, before any FFI
call; a plugin ID with an embedded null byte makes create_plugin reject
with an error before the create call but after the get_factory FFI
call. -/
theorem c8_outbound_validation (env : LoadEnv) (path : OsPath)
    (lib : PluginLibrary) (entry : EntryPoint) (fid id : String) :
    ((anchorPath env path).wellEncoded = false →
      PluginLibrary.load_with env path = (Except.error "Path contains invalid UTF-8", [])) ∧
    ((anchorPath env path).wellEncoded = true → (anchorPath env path).containsNull = true →
      PluginLibrary.load_with env path = (Except.error "Path contains null bytes", [])) ∧
    (strContainsNull fid = true → lib.factory_exists fid = none) ∧
    (getClapEntryPoint lib.library = Except.ok entry →
      entry.getFactory CLAP_PLUGIN_FACTORY_ID = true → strContainsNull id = true →
      lib.create_plugin id = some (Except.error "Plugin ID contained null bytes",
        [Event.getFactory CLAP_PLUGIN_FACTORY_ID])) := by
  refine ⟨?_, ?_, ?_, ?_⟩
  · intro h
    unfold PluginLibrary.load_with
    dsimp only
    rw [h]
    simp
  · intro h1 h2
    unfold PluginLibrary.load_with
    dsimp only
    rw [h1, h2]
    simp
  · intro h
    unfold PluginLibrary.factory_exists
    rw [h]
    simp
  · intro hentry hfac hid
    unfold PluginLibrary.create_plugin
    rw [hentry]
    simp [hfac, hid]

/-- A path whose single component contains an embedded null byte. -/
def nullBytePath : OsPath :=
  { absolute := false, components := ["a\x00b"], wellEncoded := true }

/-- Witness for the amended C8 at concrete inputs: the null-byte path is
rejected before any FFI call, factory_exists panics on the null-byte ID,
and create_plugin rejects it after only the get_factory call. -/
theorem c8_witness :
    PluginLibrary.load_with sampleEnv nullBytePath =
      (Except.error "Path contains null bytes", []) ∧
    sampleLib.factory_exists badId = none ∧
    sampleLib.create_plugin badId =
      some (Except.error "Plugin ID contained null bytes",
            [Event.getFactory CLAP_PLUGIN_FACTORY_ID]) := by
  have h := c8_outbound_validation sampleEnv nullBytePath sampleLib sampleEntry badId badId
  exact ⟨h.2.1 rfl rfl, h.2.2.1 rfl, h.2.2.2 rfl rfl rfl⟩
